import Mathlib

/-!
Verification development for `swoosh.py`, a small documentation generator.

The Python program walks directory trees, parses every `*.py` file with the
`ast` module, extracts module/function docstrings and positional parameter
names, and renders a single HTML page.  The definitions below are a shallow
embedding of that program: Python's AST (restricted to the statement-level
structure that the program inspects), `inspect.cleandoc` (applied by
`ast.get_docstring` with its default `clean=True`), the breadth-first
`ast.walk` traversal, and the HTML generation pipeline of `generate_html`
and `main`.
-/

namespace Swoosh

/-- One formal parameter of the Python AST: `ast.arg` (only its `.arg` name
field is ever read by the program). -/
structure Arg where
  arg : String
deriving DecidableEq

/-- The `ast.arguments` node of a modern (3.8+) Python AST.  `posonlyargs`
holds positional-only parameters (those before a `/`), `args` holds the
positional-or-keyword parameters, `vararg`/`kwarg` the `*args`/`**kwargs`
slots and `kwonlyargs` the keyword-only parameters.  Default-value
expressions are irrelevant to every claim except for the fact that they are
dropped, so they are modelled by the number of trailing positional defaults. -/
structure Arguments where
  posonlyargs : List Arg
  args : List Arg
  vararg : Option Arg
  kwonlyargs : List Arg
  kwarg : Option Arg
  defaults : Nat
deriving DecidableEq

/-- Python AST nodes, restricted to what `swoosh.py` can observe.
`functionDef`/`asyncFunctionDef` carry the name, the `arguments` node and the
body statements; `exprStr` is an `Expr` statement whose value is a string
`Constant` (the docstring shape tested by `ast.get_docstring`); every other
node kind is `other` with the list of its child nodes that can themselves
contain statements (`If`/`Try`/`With` bodies, `ExceptHandler`s, a class
body, ...).  Child subtrees that can never contain a `FunctionDef` or
`AsyncFunctionDef` node — the `arguments` subtree, decorator and other
expressions — are omitted: they produce no entries, and dropping whole
subtrees never changes the relative breadth-first order of the remaining
nodes. -/
inductive Node where
  | functionDef (name : String) (args : Arguments) (body : List Node)
  | asyncFunctionDef (name : String) (args : Arguments) (body : List Node)
  | exprStr (s : String)
  | other (children : List Node)

/-- The child nodes of a node, in field order, as `ast.iter_child_nodes`
yields them (restricted as described at `Node`). -/
def Node.childNodes : Node → List Node
  | .functionDef _ _ body => body
  | .asyncFunctionDef _ _ body => body
  | .exprStr _ => []
  | .other cs => cs

mutual

/-- Size measure used to justify termination of the traversals. -/
def Node.size : Node → Nat
  | .functionDef _ _ body => 1 + Node.sizeList body
  | .asyncFunctionDef _ _ body => 1 + Node.sizeList body
  | .exprStr _ => 1
  | .other cs => 1 + Node.sizeList cs

/-- Total size of a list of nodes. -/
def Node.sizeList : List Node → Nat
  | [] => 0
  | n :: ns => Node.size n + Node.sizeList ns

end

theorem Node.sizeList_append (a b : List Node) :
    Node.sizeList (a ++ b) = Node.sizeList a + Node.sizeList b := by
  induction a with
  | nil => simp [Node.sizeList]
  | cons n ns ih =>
      simp [Node.sizeList, ih]
      omega

theorem Node.size_pos (n : Node) : 0 < n.size := by
  cases n <;> simp [Node.size]

theorem Node.sizeList_childNodes (n : Node) :
    Node.sizeList n.childNodes + 1 = n.size := by
  cases n <;> simp [Node.size, Node.childNodes, Node.sizeList] <;> omega

/-- The breadth-first traversal of `ast.walk`: a FIFO queue is initialised
with the argument, and each popped node is yielded and its children appended
to the queue (`todo.extend(ast.iter_child_nodes(node))`). -/
def walkNodes (todo : List Node) : List Node :=
  match todo with
  | [] => []
  | n :: rest => n :: walkNodes (rest ++ n.childNodes)
termination_by Node.sizeList todo
decreasing_by
  have h := Node.sizeList_childNodes n
  simp [Node.sizeList_append, Node.sizeList]
  omega

/-- Pre-order (depth-first, parent before children, left to right) traversal
of a list of trees; this follows the spec's words, for comparison with the
breadth-first order that `ast.walk` actually produces. -/
def preorderNodes (l : List Node) : List Node :=
  match l with
  | [] => []
  | n :: rest => n :: (preorderNodes n.childNodes ++ preorderNodes rest)
termination_by Node.sizeList l
decreasing_by
  · have h := Node.sizeList_childNodes n
    simp [Node.sizeList]
    omega
  · have h := Node.size_pos n
    simp [Node.sizeList]
    omega

theorem preorderNodes_append (a b : List Node) :
    preorderNodes (a ++ b) = preorderNodes a ++ preorderNodes b := by
  induction a with
  | nil => simp [preorderNodes]
  | cons n ns ih =>
      rw [List.cons_append, preorderNodes, preorderNodes, ih]
      simp [List.append_assoc]

/-- The breadth-first enumeration visits exactly the nodes of the pre-order
enumeration, as a multiset: only the order differs. -/
theorem walkNodes_perm_preorderNodes (l : List Node) :
    List.Perm (walkNodes l) (preorderNodes l) := by
  generalize hk : Node.sizeList l = k
  induction k using Nat.strong_induction_on generalizing l with
  | _ k ih =>
    cases l with
    | nil => rw [walkNodes, preorderNodes]
    | cons n rest =>
        subst hk
        rw [walkNodes, preorderNodes]
        have hlt : Node.sizeList (rest ++ n.childNodes) < Node.sizeList (n :: rest) := by
          have h := Node.sizeList_childNodes n
          simp [Node.sizeList_append, Node.sizeList]
          omega
        have h1 := ih _ hlt (rest ++ n.childNodes) rfl
        rw [preorderNodes_append] at h1
        exact List.Perm.cons n (h1.trans List.perm_append_comm)

/-- Modelled from CPython's `str.expandtabs()` (tab size 8), which
`inspect.cleandoc` applies first: each tab is replaced by spaces up to the
next multiple of 8 columns, and the column counter resets after a newline or
carriage return. -/
def pyExpandtabsAux : List Char → Nat → List Char
  | [], _ => []
  | c :: cs, col =>
    if c = '\t' then
      let pad := 8 - col % 8
      List.replicate pad ' ' ++ pyExpandtabsAux cs (col + pad)
    else if c = '\n' ∨ c = '\r' then
      c :: pyExpandtabsAux cs 0
    else
      c :: pyExpandtabsAux cs (col + 1)

/-- Split a character list on newline characters, like Python's
`str.split('\n')`: the empty text gives one empty line, and a trailing
newline gives a trailing empty line. -/
def splitLines : List Char → List (List Char)
  | [] => [[]]
  | c :: rest =>
    if c = '\n' then [] :: splitLines rest
    else
      match splitLines rest with
      | [] => [[c]]
      | l :: ls => (c :: l) :: ls

/-- Join lines with newline characters (`'\n'.join(lines)`). -/
def joinLines : List (List Char) → List Char
  | [] => []
  | [l] => l
  | l :: ls => l ++ '\n' :: joinLines ls

/-- Core of `inspect.cleandoc` over an already tab-expanded character list:
compute the minimum indentation of the non-blank lines after the first
(Python's `margin`, `sys.maxsize` becoming `none` here), strip leading
whitespace from the first line, drop `margin` characters from every later
line, then drop trailing and leading empty lines.  Python's `str.lstrip()`
strips Unicode whitespace; `Char.isWhitespace` covers the ASCII whitespace
that can occur here. -/
def cleandocChars (cs : List Char) : List Char :=
  let lines := splitLines cs
  let margins := (lines.drop 1).filterMap (fun line =>
    let content := (line.dropWhile Char.isWhitespace).length
    if content = 0 then none else some (line.length - content))
  let lines1 :=
    match lines with
    | [] => []
    | l0 :: rest => l0.dropWhile Char.isWhitespace :: rest
  let lines2 :=
    match margins.min? with
    | none => lines1
    | some m =>
      match lines1 with
      | [] => []
      | l0 :: rest => l0 :: rest.map (List.drop m)
  let lines3 := (lines2.reverse.dropWhile List.isEmpty).reverse
  let lines4 := lines3.dropWhile List.isEmpty
  joinLines lines4

/-- Modelled from `inspect.cleandoc`, which `ast.get_docstring` applies to
every docstring because the program calls it with the default `clean=True`. -/
def cleandoc (s : String) : String :=
  String.mk (cleandocChars (pyExpandtabsAux s.data 0))

/-- Modelled from `ast.get_docstring(node)` (default `clean=True`), applied
to the body of a `Module`, `FunctionDef` or `AsyncFunctionDef`: if the first
body statement is an `Expr` whose value is a string constant, the cleaned
string is returned, otherwise `None`. -/
def getDocstringOfBody (body : List Node) : Option String :=
  match body with
  | .exprStr s :: _ => some (cleandoc s)
  | _ => none

/-- The tuple `(name, docstring, params)` that `get_function_info` records
for a `FunctionDef` or `AsyncFunctionDef` node met during the walk, and
`none` for every other node: `name = node.name`,
`docstring = ast.get_docstring(node) or ""`, and
`params = [arg.arg for arg in node.args.args]` — only the
positional-or-keyword parameter names. -/
def funcEntryOf : Node → Option (String × String × List String)
  | .functionDef name args body =>
      some (name, (getDocstringOfBody body).getD "", args.args.map Arg.arg)
  | .asyncFunctionDef name args body =>
      some (name, (getDocstringOfBody body).getD "", args.args.map Arg.arg)
  | _ => none

/-- A parsed Python module (`ast.Module`): its body statements. -/
structure Module where
  body : List Node

/-- The ambient effects the program consumes, bundled so every function of
the embedding is a pure function of them.
`walk d` models `os.walk(d)`: the ordered `(root, files)` pairs it yields
(the `dirs` component of each triple is never read by the program);
`read p` models `open(p).read()` inside the `try`: either the file's decoded
text, or an error for the exception (e.g. `UnicodeDecodeError`) that the bare
`except:` then catches;
`parse t` models `ast.parse(t)`: a parsed module or a raised `SyntaxError`;
`relpath p d` models `os.path.relpath(p, d)`, kept abstract because it
consults the process working directory. -/
structure PyEnv where
  walk : String → List (String × List String)
  read : String → Except Unit String
  parse : String → Except Unit Module
  relpath : String → String → String

/-- Modelled from `get_file_docstring` (src/swoosh.py lines 6-12): parse the
file's text; any exception raised by `file.read()` or `ast.parse` inside the
`try` yields `""`; otherwise `ast.get_docstring(tree) or ""`. -/
def get_file_docstring (env : PyEnv) (filepath : String) : String :=
  match env.read filepath with
  | .error _ => ""
  | .ok text =>
    match env.parse text with
    | .error _ => ""
    | .ok tree => (getDocstringOfBody tree.body).getD ""

/-- Modelled from `get_function_info` (src/swoosh.py lines 14-30): on a read
or parse failure the empty list is returned; otherwise every `FunctionDef` or
`AsyncFunctionDef` met by `ast.walk(tree)` contributes its entry, in walk
order.  `ast.walk(tree)` yields the `Module` node first (which matches no
`isinstance` test) and then runs its breadth-first queue over the children,
so the entries are those of `walkNodes tree.body`. -/
def get_function_info (env : PyEnv) (filepath : String) :
    List (String × String × List String) :=
  match env.read filepath with
  | .error _ => []
  | .ok text =>
    match env.parse text with
    | .error _ => []
    | .ok tree => (walkNodes tree.body).filterMap funcEntryOf

/-- Python's `str.endswith(suffix)` over the characters. -/
def strEndsWith (s suffix : String) : Bool :=
  suffix.data.isSuffixOf s.data

/-- Python's `str.startswith(sub)` over the characters. -/
def strStartsWith (s sub : String) : Bool :=
  sub.data.isPrefixOf s.data

/-- Modelled from `os.path.basename` on POSIX: everything after the last
slash. -/
def basename (p : String) : String :=
  ((p.splitOn "/").getLast?).getD ""

/-- Modelled from `os.path.join(a, b)` on POSIX for the two-argument calls
the program makes: an absolute `b` replaces `a`; otherwise a single slash
separates them unless `a` is empty or already ends with one. -/
def pathJoin (a b : String) : String :=
  if strStartsWith b "/" then b
  else if a = "" ∨ strEndsWith a "/" then a ++ b
  else a ++ "/" ++ b

/-- The filter `if file.endswith('.py')` applied to one `files` listing. -/
def pyFiles (files : List String) : List String :=
  files.filter (fun f => strEndsWith f ".py")

/-- The string bound by
`param_list = ', '.join(params) if params else 'No parameters'`
(an empty Python list is falsy). -/
def paramListStr (params : List String) : String :=
  if params.isEmpty then "No parameters" else String.intercalate ", " params

/-- The string bound by
`func_docstring_html = func_docstring if func_docstring else 'No docstring'`
(an empty Python string is falsy). -/
def docstringHtmlStr (d : String) : String :=
  if d = "" then "No docstring" else d

/-- The five lines appended to `html_content` for one function inside the
file tree (src/swoosh.py lines 125-129). -/
def funcTreeLines (f : String × String × List String) : List String :=
  ["<li><span class=\"caret\">Function: " ++ f.1 ++ "</span>",
   "<ul class=\"nested\">",
   "<li><strong>Parameters:</strong> " ++ paramListStr f.2.2 ++ "</li>",
   "<li><strong>Docstring:</strong> " ++ docstringHtmlStr f.2.1 ++ "</li>",
   "</ul></li>"]

/-- One element of `all_functions`:
`(relpath, func_name, param_list, func_docstring_html)`. -/
abbrev FlatEntry : Type := String × String × String × String

/-- The work done for one selected `.py` file in the walk loop
(src/swoosh.py lines 109-133): the lines appended to `html_content`
(file caret, optional file-docstring line — appended only when the
docstring is truthy, i.e. non-empty —, the per-function blocks, and the
closing tags), paired with the entries appended to `all_functions`. -/
def filePart (env : PyEnv) (directory root file : String) :
    List String × List FlatEntry :=
  let filepath := pathJoin root file
  let relpath := env.relpath filepath directory
  let file_docstring := get_file_docstring env filepath
  let functions := get_function_info env filepath
  (["<li><span class=\"caret\">" ++ relpath ++ "</span>",
    "<ul class=\"nested\">"]
    ++ (if file_docstring = "" then []
        else ["<li><strong>File Docstring:</strong> " ++ file_docstring ++ "</li>"])
    ++ functions.flatMap funcTreeLines
    ++ ["</ul></li>"],
   functions.map (fun f =>
     ((relpath, f.1, paramListStr f.2.2, docstringHtmlStr f.2.1) : FlatEntry)))

/-- The per-file parts produced for one `files` listing, in enumeration
order, keeping only the `.py` files. -/
def filesParts (env : PyEnv) (directory root : String) (files : List String) :
    List (List String × List FlatEntry) :=
  (pyFiles files).map (filePart env directory root)

/-- The work done for one directory argument (src/swoosh.py lines 102-135):
a caret node labeled with the directory's basename, then the parts of every
selected file of every `os.walk` triple, then the closing tags. -/
def dirPart (env : PyEnv) (directory : String) :
    List String × List FlatEntry :=
  let parts := (env.walk directory).flatMap (fun rf => filesParts env directory rf.1 rf.2)
  (["<li><span class=\"caret\">" ++ basename directory ++ "</span>",
    "<ul class=\"nested\">"]
    ++ parts.flatMap Prod.fst
    ++ ["</ul></li>"],
   parts.flatMap Prod.snd)

/-- The file-tree section (src/swoosh.py lines 98-137): the `fileTree` list
wrapping every directory's part, paired with the accumulated
`all_functions`. -/
def treePart (env : PyEnv) (directories : List String) :
    List String × List FlatEntry :=
  let dirParts := directories.map (dirPart env)
  ("<ul id=\"fileTree\">" :: dirParts.flatMap Prod.fst ++ ["</ul>"],
   dirParts.flatMap Prod.snd)

/-- The five lines appended for one `all_functions` entry in the flat
function list (src/swoosh.py lines 143-147). -/
def flatEntryLines (e : FlatEntry) : List String :=
  ["<li><strong>" ++ e.2.1 ++ "</strong> in <em>" ++ e.1 ++ "</em>",
   "<ul>",
   "<li><strong>Parameters:</strong> " ++ e.2.2.1 ++ "</li>",
   "<li><strong>Docstring:</strong> " ++ e.2.2.2 ++ "</li>",
   "</ul></li>"]

/-- The flat function-list section (src/swoosh.py lines 140-148). -/
def functionListLines (entries : List FlatEntry) : List String :=
  "<ul id=\"functionList\">" :: "<h2>Function List</h2>"
    :: entries.flatMap flatEntryLines ++ ["</ul>"]

/-- The content of the triple-quoted style/script literal appended at
src/swoosh.py lines 35-91, line by line (it starts with a newline and three
of its blank-looking lines carry trailing spaces, reproduced here exactly;
braces are written with their escape codes). -/
def styleScriptLines : List String :=
  ["",
   "    <style>",
   "        body \x7b font-family: Arial, sans-serif; margin: 20px; \x7d",
   "        ul, #fileTree, #functionList \x7b list-style-type: none; padding-left: 0; \x7d",
   "        li \x7b margin-left: 20px; cursor: pointer; \x7d",
   "        .nested \x7b display: none; \x7d",
   "        .active \x7b display: block; \x7d",
   "        .caret \x7b font-weight: bold; \x7d",
   "        .caret::before \x7b content: \"\\25B6\"; margin-right: 6px; \x7d",
   "        .caret-down::before \x7b content: \"\\25BC\"; \x7d",
   "        #functionList \x7b display: none; \x7d",
   "        .toggle-btn \x7b margin: 20px; padding: 10px; background-color: #007BFF; color: white; border: none; cursor: pointer; \x7d",
   "        .search-box \x7b margin: 20px; \x7d",
   "        #viewTitle \x7b display: none; font-weight: bold; margin-top: 20px; \x7d",
   "    </style>",
   "    <script>",
   "        document.addEventListener(\"DOMContentLoaded\", function() \x7b",
   "            var togglers = document.getElementsByClassName(\"caret\");",
   "            for (var i = 0; i < togglers.length; i++) \x7b",
   "                togglers[i].addEventListener(\"click\", function() \x7b",
   "                    this.parentElement.querySelector(\".nested\").classList.toggle(\"active\");",
   "                    this.classList.toggle(\"caret-down\");",
   "                \x7d);",
   "            \x7d",
   "            ",
   "            // Toggle between file tree and function list views",
   "            document.getElementById(\"toggleViewBtn\").addEventListener(\"click\", function() \x7b",
   "                var fileTree = document.getElementById(\"fileTree\");",
   "                var functionList = document.getElementById(\"functionList\");",
   "                var viewTitle = document.getElementById(\"viewTitle\");",
   "                ",
   "                if (fileTree.style.display === \"none\") \x7b",
   "                    fileTree.style.display = \"block\";",
   "                    functionList.style.display = \"none\";",
   "                    viewTitle.style.display = \"none\";",
   "                \x7d else \x7b",
   "                    fileTree.style.display = \"none\";",
   "                    functionList.style.display = \"block\";",
   "                    viewTitle.style.display = \"block\";",
   "                \x7d",
   "            \x7d);",
   "            ",
   "            // Search functionality",
   "            document.getElementById(\"searchBox\").addEventListener(\"input\", function() \x7b",
   "                var query = this.value.toLowerCase();",
   "                var files = document.querySelectorAll(\"#fileTree li, #functionList li\");",
   "                files.forEach(function(file) \x7b",
   "                    if (file.textContent.toLowerCase().includes(query)) \x7b",
   "                        file.style.display = \"\";",
   "                    \x7d else \x7b",
   "                        file.style.display = \"none\";",
   "                    \x7d",
   "                \x7d);",
   "            \x7d);",
   "        \x7d);",
   "    </script>",
   "    </head><body>"]

/-- The six elements appended to `html_content` before the file tree
(src/swoosh.py lines 33-96). -/
def headerLines : List String :=
  ["<html><head><title>Project Documentation</title>",
   String.intercalate "\n" styleScriptLines,
   "<h1>Project Documentation</h1>",
   "<div class=\"search-box\"><input type=\"text\" id=\"searchBox\" placeholder=\"Search functions or files...\"></div>",
   "<button id=\"toggleViewBtn\" class=\"toggle-btn\">Toggle View</button>",
   "<div id=\"viewTitle\"></div>"]

/-- The full `html_content` list built by `generate_html`
(src/swoosh.py lines 33-150). -/
def htmlContentLines (env : PyEnv) (directories : List String) : List String :=
  let tp := treePart env directories
  headerLines ++ tp.1 ++ functionListLines tp.2 ++ ["</body></html>"]

/-- The observable outcome of a successful `generate_html` call: the
`(path, content)` pair written by `open(output_file, 'w')` and the line
printed to stdout. -/
structure RunResult where
  written : String × String
  printed : String
deriving DecidableEq

/-- Modelled from `generate_html(directories, output_file)`
(src/swoosh.py lines 32-155): build `html_content`, write
`'\n'.join(html_content)` to `output_file`, print the confirmation line. -/
def generate_html (env : PyEnv) (directories : List String)
    (output_file : String) : RunResult :=
  { written := (output_file, String.intercalate "\n" (htmlContentLines env directories)),
    printed := "HTML documentation written to " ++ output_file }

/-- A dynamically typed Python value, as far as `main`'s call can supply
one: a string or a list of strings. -/
inductive PyVal where
  | str (s : String)
  | list (xs : List String)

/-- Iterating a Python value in a `for` loop: a list yields its elements, a
string yields its characters as one-character strings. -/
def iterAsStrings : PyVal → List String
  | .str s => s.data.map (fun c => String.mk [c])
  | .list xs => xs

/-- Modelled from `generate_html` as called with dynamically typed
arguments: the `for directory in directories` loop iterates whatever
`directories` is, and the whole HTML construction succeeds for either shape;
the first operation that distinguishes them is `open(output_file, 'w')` at
src/swoosh.py line 152, which requires a string path and raises `TypeError`
(the error case here) when handed a list, after which nothing is written or
printed. -/
def generate_html_dyn (env : PyEnv) (directories output_file : PyVal) :
    Except Unit RunResult :=
  let dirs := iterAsStrings directories
  match output_file with
  | .str out => .ok (generate_html env dirs out)
  | .list _ => .error ()

/-- Modelled from `main` (src/swoosh.py lines 161-165): `args = sys.argv[1:]`,
`dirs = args`, `output = 'documentation.html'`, and then — exactly as the
source has it — `generate_html(output, dirs)`: the string is passed as
`directories` and the list as `output_file`. -/
def main (env : PyEnv) (argvTail : List String) : Except Unit RunResult :=
  generate_html_dyn env (.str "documentation.html") (.list argvTail)

theorem walkNodes_nil : walkNodes [] = [] := by
  simp only [walkNodes]

theorem walkNodes_cons (n : Node) (rest : List Node) :
    walkNodes (n :: rest) = n :: walkNodes (rest ++ n.childNodes) := by
  simp only [walkNodes]

theorem paramListStr_eq (params : List String) :
    paramListStr params =
      if params = [] then "No parameters" else String.intercalate ", " params := by
  cases params <;> simp [paramListStr]

/-- An `arguments` node with no parameters at all (`def f():`). -/
def noArgs : Arguments := ⟨[], [], none, [], none, 0⟩

/-- C5, following the spec claim's words: the ordered names of all the
positional parameters of a function — the positional-only ones (before a
`/`) followed by the positional-or-keyword ones. -/
def specPositionalNames (a : Arguments) : List String :=
  (a.posonlyargs ++ a.args).map Arg.arg

/-- Environment whose single module has the docstring literal
`"  hello\n    world"`. -/
def envDoc : PyEnv :=
  { walk := fun _ => []
    read := fun _ => .ok "docsrc"
    parse := fun _ => .ok ⟨[Node.exprStr "  hello\n    world"]⟩
    relpath := fun p _ => p }

/-- Environment for which every read raises (e.g. a decode error). -/
def envReadErr : PyEnv :=
  { walk := fun _ => []
    read := fun _ => .error ()
    parse := fun _ => .error ()
    relpath := fun p _ => p }

/-- Claim C1.  The spec says a completed run of the entry point writes the
rendered document to `documentation.html` and prints
`HTML documentation written to documentation.html`; but `main` passes its
arguments to `generate_html(directories, output_file)` in swapped order
(`generate_html(output, dirs)`), so `open(output_file, 'w')` receives the
list of directories and raises `TypeError` on every invocation: `main`
never completes successfully, writes nothing and prints nothing.  Calling
`generate_html` with the intended argument order does produce exactly the
claimed write target and confirmation line. -/
theorem c1_main_swapped_arguments (env : PyEnv) (args : List String) :
    main env args = Except.error () ∧
    (generate_html env args "documentation.html").written.1 = "documentation.html" ∧
    (generate_html env args "documentation.html").printed =
      "HTML documentation written to documentation.html" :=
  ⟨rfl, rfl, rfl⟩

/-- Claim C2, counterexample.  For a module whose leading string literal has
content `"  hello\n    world"`, the extracted file docstring is
`"hello\nworld"` — `ast.get_docstring`'s default `clean=True` runs
`inspect.cleandoc`, stripping the first line's leading whitespace and the
common indentation — so it is not the literal's content passed through
unmodified, contradicting the claim. -/
theorem c2_counterexample :
    get_file_docstring envDoc "f.py" = "hello\nworld" ∧
    get_file_docstring envDoc "f.py" ≠ "  hello\n    world" := by
  constructor
  · decide
  · decide

/-- Claim C2 (amended): for every source file whose module body begins with
a bare string-literal statement, the extracted file docstring equals
`inspect.cleandoc` applied to that literal's content (tabs expanded,
leading whitespace stripped from the first line, the minimum indentation of
the later non-blank lines removed from every later line, and leading and
trailing blank lines dropped); the same cleaning applies to a function's
docstring extracted from its body's first statement. -/
theorem c2_docstring_cleandoc (env : PyEnv) (fp t : String) (m : Module)
    (s : String) (rest : List Node)
    (h1 : env.read fp = .ok t) (h2 : env.parse t = .ok m)
    (h3 : m.body = Node.exprStr s :: rest) :
    get_file_docstring env fp = cleandoc s ∧
    ∀ name args ds fbody,
      Node.functionDef name args (Node.exprStr ds :: fbody) ∈ walkNodes m.body →
      (name, cleandoc ds, args.args.map Arg.arg) ∈ get_function_info env fp := by
  constructor
  · simp only [get_file_docstring, h1, h2, h3, getDocstringOfBody, Option.getD_some]
  · intro name args ds fbody hmem
    have hval : get_function_info env fp = (walkNodes m.body).filterMap funcEntryOf := by
      simp only [get_function_info, h1, h2]
    rw [hval]
    exact List.mem_filterMap.mpr ⟨_, hmem, rfl⟩

/-- Module for the C2 witness: a module docstring and one function with a
tab-indented docstring. -/
def mC2w : Module :=
  ⟨[Node.exprStr "  x",
    Node.functionDef "f" noArgs [Node.exprStr "\td"]]⟩

/-- Environment for the C2 witness. -/
def envC2w : PyEnv :=
  { walk := fun _ => []
    read := fun _ => .ok "c2src"
    parse := fun _ => .ok mC2w
    relpath := fun p _ => p }

/-- Witness for C2 (amended) at a concrete module. -/
theorem c2_witness :
    get_file_docstring envC2w "m.py" = cleandoc "  x" ∧
    ("f", cleandoc "\td", ([] : List String)) ∈ get_function_info envC2w "m.py" := by
  have h := c2_docstring_cleandoc envC2w "m.py" "c2src" mC2w "  x"
    [Node.functionDef "f" noArgs [Node.exprStr "\td"]] rfl rfl rfl
  refine ⟨h.1, ?_⟩
  have hm := h.2 "f" noArgs "\td" []
  apply hm
  simp [mC2w, walkNodes_cons, walkNodes_nil, Node.childNodes]

/-- Claim C3: a file whose read (or decode) raises inside the `try` is
treated exactly like a parse failure — empty docstring, no functions, a
file entry with an empty child list — and the remaining files of the walk
are still processed, each by the same per-file computation. -/
theorem c3_read_failure (env : PyEnv) (fp dir root f : String)
    (fs : List String) (err : Unit)
    (h1 : env.read fp = .error err)
    (h3 : pathJoin root f = fp)
    (h4 : strEndsWith f ".py" = true) :
    get_file_docstring env fp = "" ∧
    get_function_info env fp = [] ∧
    filePart env dir root f =
      (["<li><span class=\"caret\">" ++ env.relpath fp dir ++ "</span>",
        "<ul class=\"nested\">", "</ul></li>"], []) ∧
    filesParts env dir root (f :: fs) =
      filePart env dir root f :: filesParts env dir root fs := by
  have hd : get_file_docstring env fp = "" := by
    unfold get_file_docstring
    rw [h1]
  have hf : get_function_info env fp = [] := by
    unfold get_function_info
    rw [h1]
  refine ⟨hd, hf, ?_, ?_⟩
  · unfold filePart
    rw [h3]
    simp [hd, hf]
  · unfold filesParts pyFiles
    simp [h4]

/-- Witness for C3 at a concrete environment whose reads all raise. -/
theorem c3_witness :
    get_file_docstring envReadErr "d/a.py" = "" ∧
    get_function_info envReadErr "d/a.py" = [] ∧
    filePart envReadErr "lib" "d" "a.py" =
      (["<li><span class=\"caret\">" ++ "d/a.py" ++ "</span>",
        "<ul class=\"nested\">", "</ul></li>"], []) ∧
    filesParts envReadErr "lib" "d" ("a.py" :: ["b.py"]) =
      filePart envReadErr "lib" "d" "a.py" :: filesParts envReadErr "lib" "d" ["b.py"] :=
  c3_read_failure envReadErr "d/a.py" "lib" "d" "a.py" ["b.py"] ()
    rfl (by decide) (by decide)

/-- Module for C4: `def a` containing the nested `def inner`, followed by
the top-level `def b`. -/
def mC4 : Module :=
  ⟨[Node.functionDef "a" noArgs [Node.functionDef "inner" noArgs []],
    Node.functionDef "b" noArgs []]⟩

/-- Environment for C4 whose single module is `mC4`. -/
def envC4 : PyEnv :=
  { walk := fun _ => []
    read := fun _ => .ok "c4src"
    parse := fun _ => .ok mC4
    relpath := fun p _ => p }

/-- Claim C4, counterexample.  For a module defining `a` (with nested
`inner`) and then `b`, the scanner reports the names in the order
`a, b, inner` — `ast.walk` is breadth-first — whereas a pre-order traversal
gives `a, inner, b`; so the sequence is not ordered by pre-order traversal
as the claim states. -/
theorem c4_counterexample :
    (get_function_info envC4 "m.py").map (fun e => e.1) = ["a", "b", "inner"] ∧
    ((preorderNodes mC4.body).filterMap funcEntryOf).map (fun e => e.1) =
      ["a", "inner", "b"] ∧
    (["a", "b", "inner"] : List String) ≠ ["a", "inner", "b"] := by
  refine ⟨?_, ?_, by decide⟩
  · simp [get_function_info, envC4, mC4, walkNodes_cons, walkNodes_nil,
      Node.childNodes, funcEntryOf]
  · simp [preorderNodes, mC4, Node.childNodes, funcEntryOf]

/-- Claim C4 (amended): for every successfully parsed module the scanner
returns one `FunctionInfo` for every function and async-function definition
node at any nesting depth — the entries are a permutation of those a
pre-order traversal would deliver — but the sequence is ordered by the
breadth-first (level-order) traversal of `ast.walk`'s FIFO queue, not by
pre-order. -/
theorem c4_walk_breadth_first (env : PyEnv) (fp t : String) (m : Module)
    (h1 : env.read fp = .ok t) (h2 : env.parse t = .ok m) :
    get_function_info env fp = (walkNodes m.body).filterMap funcEntryOf ∧
    List.Perm ((walkNodes m.body).filterMap funcEntryOf)
      ((preorderNodes m.body).filterMap funcEntryOf) := by
  constructor
  · simp only [get_function_info, h1, h2]
  · exact (walkNodes_perm_preorderNodes m.body).filterMap _

/-- Witness for C4 (amended) at the concrete module `mC4`. -/
theorem c4_witness :
    get_function_info envC4 "m.py" = (walkNodes mC4.body).filterMap funcEntryOf ∧
    List.Perm ((walkNodes mC4.body).filterMap funcEntryOf)
      ((preorderNodes mC4.body).filterMap funcEntryOf) :=
  c4_walk_breadth_first envC4 "m.py" "c4src" mC4 rfl rfl

/-- The `arguments` node of `def f(a, /, b):` — one positional-only and one
positional-or-keyword parameter. -/
def argsC5 : Arguments := ⟨[⟨"a"⟩], [⟨"b"⟩], none, [], none, 0⟩

/-- Module for C5: the single definition `def f(a, /, b):`. -/
def mC5 : Module := ⟨[Node.functionDef "f" argsC5 []]⟩

/-- Environment for C5 whose single module is `mC5`. -/
def envC5 : PyEnv :=
  { walk := fun _ => []
    read := fun _ => .ok "c5src"
    parse := fun _ => .ok mC5
    relpath := fun p _ => p }

/-- Claim C5, counterexample.  For `def f(a, /, b):` the recorded parameter
sequence is `["b"]` — the comprehension reads only `node.args.args`, the
positional-or-keyword slot — while the positional parameters are
`["a", "b"]`: the positional-only parameter `a` is a positional parameter
whose name does not appear, contradicting the claim. -/
theorem c5_counterexample :
    get_function_info envC5 "m.py" = [("f", "", ["b"])] ∧
    specPositionalNames argsC5 = ["a", "b"] ∧
    (["b"] : List String) ≠ ["a", "b"] := by
  refine ⟨?_, by decide, by decide⟩
  simp [get_function_info, envC5, mC5, walkNodes_cons, walkNodes_nil,
    Node.childNodes, funcEntryOf, getDocstringOfBody, argsC5]

/-- Claim C5 (amended): every recorded parameter sequence is exactly the
ordered names of the node's positional-or-keyword parameters
(`node.args.args`); positional-only, variadic and keyword-only parameters
are excluded entirely, and default-value metadata is dropped (only the bare
name is kept). -/
theorem c5_params_args_args (env : PyEnv) (fp t : String) (m : Module)
    (h1 : env.read fp = .ok t) (h2 : env.parse t = .ok m) :
    ∀ e ∈ get_function_info env fp, ∃ args body,
      (Node.functionDef e.1 args body ∈ walkNodes m.body ∨
       Node.asyncFunctionDef e.1 args body ∈ walkNodes m.body) ∧
      e.2.2 = args.args.map Arg.arg := by
  have hval : get_function_info env fp = (walkNodes m.body).filterMap funcEntryOf := by
    simp only [get_function_info, h1, h2]
  rw [hval]
  intro e he
  obtain ⟨n, hn, hfn⟩ := List.mem_filterMap.mp he
  cases n with
  | functionDef name args body =>
      simp only [funcEntryOf, Option.some.injEq] at hfn
      subst hfn
      exact ⟨args, body, Or.inl hn, rfl⟩
  | asyncFunctionDef name args body =>
      simp only [funcEntryOf, Option.some.injEq] at hfn
      subst hfn
      exact ⟨args, body, Or.inr hn, rfl⟩
  | exprStr s => simp [funcEntryOf] at hfn
  | other cs => simp [funcEntryOf] at hfn

/-- Witness for C5 (amended) at the concrete entry recorded for
`def f(a, /, b):`. -/
theorem c5_witness :
    ∃ args body,
      (Node.functionDef "f" args body ∈ walkNodes mC5.body ∨
       Node.asyncFunctionDef "f" args body ∈ walkNodes mC5.body) ∧
      (["b"] : List String) = args.args.map Arg.arg := by
  apply c5_params_args_args envC5 "m.py" "c5src" mC5 rfl rfl ("f", "", ["b"])
  simp [get_function_info, envC5, mC5, walkNodes_cons, walkNodes_nil,
    Node.childNodes, funcEntryOf, getDocstringOfBody, argsC5]

/-- Environment for which every read succeeds but every parse raises a
`SyntaxError`. -/
def envParseErr : PyEnv :=
  { walk := fun _ => []
    read := fun _ => .ok "def f(:"
    parse := fun _ => .error ()
    relpath := fun p _ => p }

/-- Claim C6: a file whose text raises during `ast.parse` yields an entry
with empty docstring and empty function list — the bare `except:` swallows
the exception, so it never surfaces — and the remaining files of the
enumeration are still processed, each by the same per-file computation. -/
theorem c6_parse_failure (env : PyEnv) (fp t dir root f : String)
    (fs : List String) (err : Unit)
    (h0 : env.read fp = .ok t) (h1 : env.parse t = .error err)
    (h3 : pathJoin root f = fp)
    (h4 : strEndsWith f ".py" = true) :
    get_file_docstring env fp = "" ∧
    get_function_info env fp = [] ∧
    filePart env dir root f =
      (["<li><span class=\"caret\">" ++ env.relpath fp dir ++ "</span>",
        "<ul class=\"nested\">", "</ul></li>"], []) ∧
    filesParts env dir root (f :: fs) =
      filePart env dir root f :: filesParts env dir root fs := by
  have hd : get_file_docstring env fp = "" := by
    simp only [get_file_docstring, h0, h1]
  have hf : get_function_info env fp = [] := by
    simp only [get_function_info, h0, h1]
  refine ⟨hd, hf, ?_, ?_⟩
  · unfold filePart
    rw [h3]
    simp [hd, hf]
  · unfold filesParts pyFiles
    simp [h4]

/-- Witness for C6 at a concrete environment whose parses all fail. -/
theorem c6_witness :
    get_file_docstring envParseErr "d/a.py" = "" ∧
    get_function_info envParseErr "d/a.py" = [] ∧
    filePart envParseErr "lib" "d" "a.py" =
      (["<li><span class=\"caret\">" ++ "d/a.py" ++ "</span>",
        "<ul class=\"nested\">", "</ul></li>"], []) ∧
    filesParts envParseErr "lib" "d" ("a.py" :: ["b.py"]) =
      filePart envParseErr "lib" "d" "a.py" :: filesParts envParseErr "lib" "d" ["b.py"] :=
  c6_parse_failure envParseErr "d/a.py" "def f(:" "lib" "d" "a.py" ["b.py"] ()
    rfl rfl (by decide) (by decide)

theorem mem_filePart_tree (env : PyEnv) (d root file : String)
    (e : String × String × List String)
    (he : e ∈ get_function_info env (pathJoin root file))
    (line : String) (hl : line ∈ funcTreeLines e) :
    line ∈ (filePart env d root file).1 := by
  simp only [filePart]
  exact List.mem_append_left _
    (List.mem_append_right _ (List.mem_flatMap.mpr ⟨e, he, hl⟩))

theorem mem_filePart_flat (env : PyEnv) (d root file : String)
    (e : String × String × List String)
    (he : e ∈ get_function_info env (pathJoin root file)) :
    ((env.relpath (pathJoin root file) d, e.1,
        paramListStr e.2.2, docstringHtmlStr e.2.1) : FlatEntry)
      ∈ (filePart env d root file).2 := by
  simp only [filePart]
  exact List.mem_map_of_mem _ he

theorem filePart_mem_parts (env : PyEnv) (d : String)
    (rf : String × List String) (f : String)
    (hrf : rf ∈ env.walk d) (hf : f ∈ rf.2)
    (hpy : strEndsWith f ".py" = true) :
    filePart env d rf.1 f
      ∈ (env.walk d).flatMap (fun rf => filesParts env d rf.1 rf.2) :=
  List.mem_flatMap.mpr ⟨rf, hrf, by
    unfold filesParts pyFiles
    exact List.mem_map_of_mem _ (List.mem_filter.mpr ⟨hf, hpy⟩)⟩

theorem mem_dirPart_tree (env : PyEnv) (d : String)
    (p : List String × List FlatEntry)
    (hp : p ∈ (env.walk d).flatMap (fun rf => filesParts env d rf.1 rf.2))
    (line : String) (hl : line ∈ p.1) :
    line ∈ (dirPart env d).1 := by
  simp only [dirPart]
  exact List.mem_append_left _
    (List.mem_append_right _ (List.mem_flatMap.mpr ⟨p, hp, hl⟩))

theorem mem_dirPart_flat (env : PyEnv) (d : String)
    (p : List String × List FlatEntry)
    (hp : p ∈ (env.walk d).flatMap (fun rf => filesParts env d rf.1 rf.2))
    (e : FlatEntry) (he : e ∈ p.2) :
    e ∈ (dirPart env d).2 := by
  simp only [dirPart]
  exact List.mem_flatMap.mpr ⟨p, hp, he⟩

theorem mem_treePart_tree (env : PyEnv) (dirs : List String) (d : String)
    (hd : d ∈ dirs) (line : String) (hl : line ∈ (dirPart env d).1) :
    line ∈ (treePart env dirs).1 := by
  simp only [treePart]
  exact List.mem_cons_of_mem _ (List.mem_append_left _
    (List.mem_flatMap.mpr ⟨dirPart env d, List.mem_map_of_mem _ hd, hl⟩))

theorem mem_treePart_flat (env : PyEnv) (dirs : List String) (d : String)
    (hd : d ∈ dirs) (e : FlatEntry) (he : e ∈ (dirPart env d).2) :
    e ∈ (treePart env dirs).2 := by
  simp only [treePart]
  exact List.mem_flatMap.mpr ⟨dirPart env d, List.mem_map_of_mem _ hd, he⟩

theorem mem_functionListLines (entries : List FlatEntry) (e : FlatEntry)
    (he : e ∈ entries) (line : String) (hl : line ∈ flatEntryLines e) :
    line ∈ functionListLines entries := by
  unfold functionListLines
  exact List.mem_cons_of_mem _ (List.mem_cons_of_mem _
    (List.mem_append_left _ (List.mem_flatMap.mpr ⟨e, he, hl⟩)))

/-- Claim C7: for every function rendered into the document — in both the
nested file tree and the flat function list — the parameter names are
joined with `", "`, the literal `No parameters` replaces an empty
parameter sequence, and the literal `No docstring` replaces an empty
docstring. -/
theorem c7_rendering (env : PyEnv) (dirs : List String) (d : String)
    (rf : String × List String) (f : String)
    (e : String × String × List String)
    (hd : d ∈ dirs) (hrf : rf ∈ env.walk d) (hf : f ∈ rf.2)
    (hpy : strEndsWith f ".py" = true)
    (he : e ∈ get_function_info env (pathJoin rf.1 f)) :
    ("<li><strong>Parameters:</strong> " ++
        (if e.2.2 = [] then "No parameters" else String.intercalate ", " e.2.2) ++
        "</li>") ∈ (treePart env dirs).1 ∧
    ("<li><strong>Parameters:</strong> " ++
        (if e.2.2 = [] then "No parameters" else String.intercalate ", " e.2.2) ++
        "</li>") ∈ functionListLines (treePart env dirs).2 ∧
    ("<li><strong>Docstring:</strong> " ++
        (if e.2.1 = "" then "No docstring" else e.2.1) ++
        "</li>") ∈ (treePart env dirs).1 ∧
    ("<li><strong>Docstring:</strong> " ++
        (if e.2.1 = "" then "No docstring" else e.2.1) ++
        "</li>") ∈ functionListLines (treePart env dirs).2 := by
  have hparts := filePart_mem_parts env d rf f hrf hf hpy
  have hpl : ("<li><strong>Parameters:</strong> " ++
      (if e.2.2 = [] then "No parameters" else String.intercalate ", " e.2.2) ++
      "</li>") = "<li><strong>Parameters:</strong> " ++ paramListStr e.2.2 ++ "</li>" := by
    rw [paramListStr_eq]
  have hdl : ("<li><strong>Docstring:</strong> " ++
      (if e.2.1 = "" then "No docstring" else e.2.1) ++
      "</li>") = "<li><strong>Docstring:</strong> " ++ docstringHtmlStr e.2.1 ++ "</li>" := by
    rfl
  have hflat := mem_treePart_flat env dirs d hd _
    (mem_dirPart_flat env d _ hparts _ (mem_filePart_flat env d rf.1 f e he))
  refine ⟨?_, ?_, ?_, ?_⟩
  · rw [hpl]
    exact mem_treePart_tree env dirs d hd _
      (mem_dirPart_tree env d _ hparts _
        (mem_filePart_tree env d rf.1 f e he _ (by simp [funcTreeLines])))
  · rw [hpl]
    exact mem_functionListLines _ _ hflat _ (by simp [flatEntryLines])
  · rw [hdl]
    exact mem_treePart_tree env dirs d hd _
      (mem_dirPart_tree env d _ hparts _
        (mem_filePart_tree env d rf.1 f e he _ (by simp [funcTreeLines])))
  · rw [hdl]
    exact mem_functionListLines _ _ hflat _ (by simp [flatEntryLines])

/-- Module for the C7 witness: a single function with no parameters and no
docstring. -/
def mC7 : Module := ⟨[Node.functionDef "f" noArgs []]⟩

/-- Environment for the C7 witness: one directory `pkg` holding `mod.py`. -/
def envC7 : PyEnv :=
  { walk := fun d => if d = "pkg" then [("pkg", ["mod.py"])] else []
    read := fun _ => .ok "c7src"
    parse := fun _ => .ok mC7
    relpath := fun p _ => p }

/-- Witness for C7: the fallback literals appear in both views for the
parameterless, docstring-less function of `mC7`. -/
theorem c7_witness :
    ("<li><strong>Parameters:</strong> No parameters</li>"
      ∈ (treePart envC7 ["pkg"]).1) ∧
    ("<li><strong>Parameters:</strong> No parameters</li>"
      ∈ functionListLines (treePart envC7 ["pkg"]).2) ∧
    ("<li><strong>Docstring:</strong> No docstring</li>"
      ∈ (treePart envC7 ["pkg"]).1) ∧
    ("<li><strong>Docstring:</strong> No docstring</li>"
      ∈ functionListLines (treePart envC7 ["pkg"]).2) :=
  c7_rendering envC7 ["pkg"] "pkg" ("pkg", ["mod.py"]) "mod.py" ("f", "", [])
    (by simp) (by simp [envC7]) (by simp) (by decide)
    (by simp [get_function_info, envC7, mC7, walkNodes_cons, walkNodes_nil,
      Node.childNodes, funcEntryOf, getDocstringOfBody, noArgs])

/-- The functions of the rendered tree in their emission order: directories
in argument order, `os.walk` triples and `.py` files in enumeration order,
and each file's functions in scanner order, each paired with the file's
relative path. -/
def treeFunctionSeq (env : PyEnv) (dirs : List String) :
    List (String × (String × String × List String)) :=
  dirs.flatMap (fun d =>
    (env.walk d).flatMap (fun rf =>
      (pyFiles rf.2).flatMap (fun f =>
        (get_function_info env (pathJoin rf.1 f)).map
          (fun e => (env.relpath (pathJoin rf.1 f) d, e)))))

/-- Claim C8: `all_functions` — the sequence the flat `functionList`
section renders, one five-line block per entry — is exactly the rendering
of the tree's functions in tree-emission order, so the flat list enumerates
the same functions as the nested tree in the same relative order. -/
theorem c8_flat_list_order (env : PyEnv) (dirs : List String) :
    (treePart env dirs).2 =
      (treeFunctionSeq env dirs).map
        (fun p => ((p.1, p.2.1, paramListStr p.2.2.2,
          docstringHtmlStr p.2.2.1) : FlatEntry)) ∧
    htmlContentLines env dirs =
      headerLines ++ (treePart env dirs).1 ++
        functionListLines (treePart env dirs).2 ++ ["</body></html>"] := by
  constructor
  · simp only [treePart, treeFunctionSeq, dirPart, filesParts, filePart,
      List.flatMap_map, List.flatMap_assoc, List.map_flatMap, List.map_map,
      Function.comp_def]
  · rfl

theorem get_file_docstring_congr (env1 env2 : PyEnv) (fp : String)
    (hr : env1.read fp = env2.read fp)
    (hp : ∀ t, env1.parse t = env2.parse t) :
    get_file_docstring env1 fp = get_file_docstring env2 fp := by
  unfold get_file_docstring
  rw [hr]
  cases env2.read fp with
  | error e => rfl
  | ok t => simp only [hp]

theorem get_function_info_congr (env1 env2 : PyEnv) (fp : String)
    (hr : env1.read fp = env2.read fp)
    (hp : ∀ t, env1.parse t = env2.parse t) :
    get_function_info env1 fp = get_function_info env2 fp := by
  unfold get_function_info
  rw [hr]
  cases env2.read fp with
  | error e => rfl
  | ok t => simp only [hp]

theorem filePart_congr (env1 env2 : PyEnv) (d root f : String)
    (hrel : env1.relpath (pathJoin root f) d = env2.relpath (pathJoin root f) d)
    (hr : env1.read (pathJoin root f) = env2.read (pathJoin root f))
    (hp : ∀ t, env1.parse t = env2.parse t) :
    filePart env1 d root f = filePart env2 d root f := by
  simp only [filePart]
  rw [hrel, get_file_docstring_congr env1 env2 _ hr hp,
    get_function_info_congr env1 env2 _ hr hp]

theorem dirPart_congr (env1 env2 : PyEnv) (d : String)
    (hw : env1.walk d = env2.walk d)
    (hrel : ∀ rf ∈ env1.walk d, ∀ f ∈ pyFiles rf.2,
      env1.relpath (pathJoin rf.1 f) d = env2.relpath (pathJoin rf.1 f) d)
    (hr : ∀ rf ∈ env1.walk d, ∀ f ∈ pyFiles rf.2,
      env1.read (pathJoin rf.1 f) = env2.read (pathJoin rf.1 f))
    (hp : ∀ t, env1.parse t = env2.parse t) :
    dirPart env1 d = dirPart env2 d := by
  simp only [dirPart]
  have hparts : (env1.walk d).flatMap (fun rf => filesParts env1 d rf.1 rf.2)
      = (env2.walk d).flatMap (fun rf => filesParts env2 d rf.1 rf.2) := by
    rw [← hw]
    apply List.flatMap_congr
    intro rf hrf
    unfold filesParts
    apply List.map_congr_left
    intro f hf
    exact filePart_congr env1 env2 d rf.1 f (hrel rf hrf f hf) (hr rf hrf f hf) hp
  rw [hparts]

/-- Claim C9: the generation pipeline is deterministic in its inputs — two
environments that agree on the directory enumerations, on the relative
paths and read results of every enumerated `.py` file, and on parsing,
yield byte-identical output (and the same printed line) for the same
directory arguments. -/
theorem c9_deterministic (env1 env2 : PyEnv) (dirs : List String) (out : String)
    (hw : ∀ d ∈ dirs, env1.walk d = env2.walk d)
    (hrel : ∀ d ∈ dirs, ∀ rf ∈ env1.walk d, ∀ f ∈ pyFiles rf.2,
      env1.relpath (pathJoin rf.1 f) d = env2.relpath (pathJoin rf.1 f) d)
    (hr : ∀ d ∈ dirs, ∀ rf ∈ env1.walk d, ∀ f ∈ pyFiles rf.2,
      env1.read (pathJoin rf.1 f) = env2.read (pathJoin rf.1 f))
    (hp : ∀ t, env1.parse t = env2.parse t) :
    generate_html env1 dirs out = generate_html env2 dirs out := by
  have ht : treePart env1 dirs = treePart env2 dirs := by
    simp only [treePart]
    have hmap : dirs.map (dirPart env1) = dirs.map (dirPart env2) :=
      List.map_congr_left (fun d hd =>
        dirPart_congr env1 env2 d (hw d hd) (hrel d hd) (hr d hd) hp)
    rw [hmap]
  simp only [generate_html, htmlContentLines]
  rw [ht]

/-- Environment for the C9 witness. -/
def envC9 : PyEnv :=
  { walk := fun _ => []
    read := fun _ => .error ()
    parse := fun _ => .error ()
    relpath := fun p _ => p }

/-- Witness for C9 with all hypotheses discharged at a concrete input. -/
theorem c9_witness :
    generate_html envC9 [] "documentation.html" =
      generate_html envC9 [] "documentation.html" :=
  c9_deterministic envC9 envC9 [] "documentation.html"
    (fun _ hd => nomatch hd) (fun _ hd => nomatch hd)
    (fun _ hd => nomatch hd) (fun _ => rfl)

/-- Claim C10: a directory argument for which `os.walk` enumerates nothing
(a nonexistent path or an ordinary file — `os.walk` swallows the scandir
error and yields no triples) still gets its caret node, labeled with the
argument's basename and carrying an empty child list, contributes no
functions, and the remaining directory arguments are processed unchanged;
no exception escapes (`dirPart` and `treePart` are total functions). -/
theorem c10_non_enumerable_directory (env : PyEnv) (d : String)
    (rest : List String) (h : env.walk d = []) :
    dirPart env d =
      (["<li><span class=\"caret\">" ++ basename d ++ "</span>",
        "<ul class=\"nested\">", "</ul></li>"], []) ∧
    (treePart env (d :: rest)).1 =
      "<ul id=\"fileTree\">" ::
        (["<li><span class=\"caret\">" ++ basename d ++ "</span>",
          "<ul class=\"nested\">", "</ul></li>"] ++
          ((rest.map (dirPart env)).flatMap Prod.fst ++ ["</ul>"])) ∧
    (treePart env (d :: rest)).2 = (treePart env rest).2 := by
  have h1 : dirPart env d =
      (["<li><span class=\"caret\">" ++ basename d ++ "</span>",
        "<ul class=\"nested\">", "</ul></li>"], []) := by
    simp only [dirPart]
    rw [h]
    simp
  refine ⟨h1, ?_, ?_⟩
  · simp only [treePart, List.map_cons, List.flatMap_cons]
    rw [h1]
    simp [List.append_assoc]
  · simp only [treePart, List.map_cons, List.flatMap_cons]
    rw [h1]
    simp

/-- Environment for the C10 witness. -/
def envC10 : PyEnv :=
  { walk := fun _ => []
    read := fun _ => .error ()
    parse := fun _ => .error ()
    relpath := fun p _ => p }

/-- Witness for C10 at a concrete argument that enumerates nothing. -/
theorem c10_witness :
    dirPart envC10 "missing.txt" =
      (["<li><span class=\"caret\">" ++ basename "missing.txt" ++ "</span>",
        "<ul class=\"nested\">", "</ul></li>"], []) ∧
    (treePart envC10 ("missing.txt" :: ["other"])).1 =
      "<ul id=\"fileTree\">" ::
        (["<li><span class=\"caret\">" ++ basename "missing.txt" ++ "</span>",
          "<ul class=\"nested\">", "</ul></li>"] ++
          ((["other"].map (dirPart envC10)).flatMap Prod.fst ++ ["</ul>"])) ∧
    (treePart envC10 ("missing.txt" :: ["other"])).2 =
      (treePart envC10 ["other"]).2 :=
  c10_non_enumerable_directory envC10 "missing.txt" ["other"] rfl

end Swoosh
